import Mathlib

/-!
Shallow embedding of the credential/identity core of open-balena-api:
`src/infra/auth/auth.ts` (password comparator, user directory, request
identity resolver) and `src/platform/api-keys.ts` (API key issuer).

External collaborators (the pinejs store adapter, the bcrypt-style
`Hashed.compare` primitive, the access-control `canAccess` endpoint and
the id generator) are passed in as explicit oracle parameters; store
reads and writes are made explicit so that the queries a code path
issues, and the rows it persists, are visible in the model's results.
-/

namespace OpenBalena

/-- Semantic error kinds thrown by the core (BadRequestError,
ConflictError, UnauthorizedError, NotFoundError, ForbiddenError and
generic `Error`s respectively). -/
inductive Err where
  | badRequest (msg : String)
  | conflict (msg : String)
  | unauthorized (msg : String)
  | notFound (msg : String)
  | forbidden
  | internal (msg : String)
  deriving DecidableEq, Repr

/-! ### Password comparator (`auth.ts` lines 32-54) -/

/-- One invocation of the external `sbvrUtils.sbvrTypes.Hashed.compare`
primitive: which password string and which hash string were passed. -/
structure CompareCall where
  password : String
  hash : String
  deriving DecidableEq, Repr

/-- The fixed, valid-format dummy bcrypt hash hard-coded in
`runInvalidPasswordComparison`. -/
def dummyHash : String :=
  "$2b$10$Wj6ud7bYmcAw4B1uuORsnuYODUKSkrH6dVwG1zoUhDeTCjwsxlp5."

/-- `runInvalidPasswordComparison` (`auth.ts` lines 36-40): calls the
compare primitive on the empty string and the dummy hash. The model
returns both the call that was made and the primitive's result.
`compare` is the external hash-comparison oracle. -/
def runInvalidPasswordComparison (compare : String → String → Bool) :
    CompareCall × Bool :=
  (⟨"", dummyHash⟩, compare "" dummyHash)

/-- `comparePassword` (`auth.ts` lines 42-45), instrumented to expose the
compare-primitive call that was performed alongside the boolean result. -/
def comparePasswordTraced (compare : String → String → Bool)
    (password : String) (hash : Option String) : CompareCall × Bool :=
  match hash with
  | none => runInvalidPasswordComparison compare
  | some h => (⟨password, h⟩, compare password h)

/-- `comparePassword`'s boolean result alone. -/
def comparePassword (compare : String → String → Bool)
    (password : String) (hash : Option String) : Bool :=
  (comparePasswordTraced compare password hash).2

/-- `validatePassword` (`auth.ts` lines 47-54). The argument is
`password?: string`; `none` models `undefined` and the empty string is
falsy, so both hit the `Password required.` branch. -/
def validatePassword (password : Option String) : Except Err Unit :=
  match password with
  | none => .error (.badRequest "Password required.")
  | some p =>
    if p = "" then .error (.badRequest "Password required.")
    else if p.length < 8 then
      .error (.badRequest "Password must be at least 8 characters.")
    else .ok ()

/-! ### User directory (`auth.ts` lines 220-330) -/

/-- A `user` row with the columns this core touches. -/
structure UserRec where
  id : Nat
  actor : Nat
  username : String
  email : String
  password : Option String
  created_at : Nat
  jwt_secret : String
  deriving DecidableEq, Repr

/-- Which column `findUser` filters on. -/
inductive LoginField where
  | email
  | username
  deriving DecidableEq, Repr

/-- A case-insensitive single-field lookup issued against the store:
`lower(field) = lower(value)`. -/
structure FindQuery where
  field : LoginField
  value : String
  deriving DecidableEq, Repr

/-- ASCII case folding, modelling the store's `$tolower` function
(structural over the character list, so concrete instances evaluate). -/
def strLower (s : String) : String := ⟨s.data.map Char.toLower⟩

/-- The `$tolower`-both-sides equality filter of `findUser`. -/
def matchesLogin (field : LoginField) (value : String) (u : UserRec) : Bool :=
  match field with
  | .email => strLower u.email == strLower value
  | .username => strLower u.username == strLower value

/-- `findUser`'s classification of `loginInfo`: an email iff it contains
an `@`, else a username (`auth.ts` lines 253-258). -/
def classifyLogin (loginInfo : String) : LoginField :=
  if loginInfo.data.contains '@' then .email else .username

/-- `findUser` (`auth.ts` lines 227-282) against a store `db`,
instrumented with the list of queries it issued. `tx` and `sel` model
the transaction and `$select` arguments, which do not affect which row
is found. A falsy (empty) `loginInfo` returns immediately with no
query; otherwise one case-insensitive lookup runs and the first match
is taken. -/
def findUserTraced (db : List UserRec) (tx : Option Nat) (sel : List String)
    (loginInfo : String) : Option UserRec × List FindQuery :=
  if loginInfo = "" then (none, [])
  else
    let field := classifyLogin loginInfo
    ((db.filter (matchesLogin field loginInfo)).head?, [⟨field, loginInfo⟩])

/-- `USERNAME_BLACKLIST` (`auth.ts` line 20). -/
def USERNAME_BLACKLIST : List String := ["root"]

/-- The registration payload fields the control flow inspects. -/
structure RegisterInput where
  username : String
  email : String
  deriving DecidableEq, Repr

/-- A store interaction performed by `registerUser`: a `findUser`
uniqueness query or the user-row insert. -/
inductive RegAction where
  | query (q : FindQuery)
  | insertUser
  deriving DecidableEq, Repr

/-- The part of `registerUser` after the blacklist check (`auth.ts`
lines 296-329): email uniqueness, then username uniqueness, then the
insert; `createdId` is the id the store reports for the inserted row
(`none` models a record without an id, which raises a generic internal
error). The second component records the store interactions in order. -/
def registerUserPostBlacklist (db : List UserRec) (tx : Nat)
    (createdId : Option Nat) (userData : RegisterInput) :
    Except Err Nat × List RegAction :=
  let r1 := findUserTraced db (some tx) ["id"] userData.email
  let t1 := r1.2.map RegAction.query
  match r1.1 with
  | some _ => (.error (.conflict "This email is already taken"), t1)
  | none =>
    let r2 := findUserTraced db (some tx) ["id"] userData.username
    let t2 := t1 ++ r2.2.map RegAction.query
    match r2.1 with
    | some _ => (.error (.conflict "This username is already taken"), t2)
    | none =>
      let t3 := t2 ++ [RegAction.insertUser]
      match createdId with
      | none => (.error (.internal "Error creating user in the platform"), t3)
      | some uid => (.ok uid, t3)

/-- `registerUser` (`auth.ts` lines 284-330): the blacklist membership
test (exact `Array.prototype.includes` match) runs first and issues no
store interaction when it rejects. -/
def registerUser (db : List UserRec) (tx : Nat) (createdId : Option Nat)
    (userData : RegisterInput) : Except Err Nat × List RegAction :=
  if USERNAME_BLACKLIST.contains userData.username then
    (.error (.conflict "This username is blacklisted"), [])
  else registerUserPostBlacklist db tx createdId userData

/-- `updatePasswordIfNeeded` (`auth.ts` lines 81-101). `setPasswordResult`
is the outcome of the store patch performed by `setPassword`. The model
returns `(returned boolean, whether the store write path was invoked)`;
a failing `setPassword` is caught and reported as `false`, never as an
error. -/
def updatePasswordIfNeeded (db : List UserRec)
    (compare : String → String → Bool) (setPasswordResult : Except Err Unit)
    (usernameOrEmail newPassword : String) : Except Err (Bool × Bool) :=
  match (findUserTraced db none ["id", "actor", "username", "password"]
      usernameOrEmail).1 with
  | none => .error (.notFound "User not found.")
  | some user =>
    if comparePassword compare newPassword user.password then .ok (false, false)
    else
      match setPasswordResult with
      | .ok _ => .ok (true, true)
      | .error _ => .ok (false, true)

/-! ### API key issuer (`api-keys.ts`) -/

/-- An `api_key` row in the Auth model. -/
structure ApiKeyRow where
  id : Nat
  key : String
  is_of__actor : Nat
  name : Option String
  description : Option String
  deriving DecidableEq, Repr

/-- A `role` row. -/
structure RoleRow where
  id : Nat
  name : String
  deriving DecidableEq, Repr

/-- An `api_key__has__role` row. -/
structure BindingRow where
  api_key : Nat
  role : Nat
  deriving DecidableEq, Repr

/-- The Auth-model store state touched by key issuance; `nextId` is the
id the store will assign to the next inserted `api_key` row. -/
structure AuthStore where
  apiKeys : List ApiKeyRow
  roles : List RoleRow
  bindings : List BindingRow
  nextId : Nat
  deriving DecidableEq, Repr

/-- `$createApiKey` (`api-keys.ts` lines 22-95) run inside a transaction.
Oracles for the external calls: `actorLookup` is the `actor` field of
`actorType(actorTypeID)` (`none` when the entity is missing or has no
actor — generic error), `canAccess` is the list of ids returned by the
`canAccess` POST (its head is compared with `actorTypeID`; mismatch is
`Forbidden`), `keyInsertOk`/`bindingInsertOk` say whether the two Auth
inserts succeed. The role is looked up by name; an empty result makes
the `[{ id: roleId }]` destructuring throw. Returns the state as left
inside the transaction plus the result. -/
def createApiKeyInTx (actorLookup : Option Nat) (canAccess : List Nat)
    (keyInsertOk bindingInsertOk : Bool) (actorTypeID : Nat)
    (roleName : String) (apiKey : String) (name description : Option String)
    (s : AuthStore) : AuthStore × Except Err String :=
  match actorLookup with
  | none => (s, .error (.internal "No entity found to associate with the api key"))
  | some actorID =>
    if canAccess.head? = some actorTypeID then
      if keyInsertOk then
        let newKeys := s.apiKeys ++ [⟨s.nextId, apiKey, actorID, name, description⟩]
        match (s.roles.filter (fun r => r.name == roleName)).head? with
        | none =>
          (⟨newKeys, s.roles, s.bindings, s.nextId + 1⟩,
            .error (.internal "cannot destructure role id"))
        | some role =>
          if bindingInsertOk then
            (⟨newKeys, s.roles, s.bindings ++ [⟨s.nextId, role.id⟩],
              s.nextId + 1⟩, .ok apiKey)
          else
            (⟨newKeys, s.roles, s.bindings, s.nextId + 1⟩,
              .error (.internal "api_key__has__role insert failed"))
      else (s, .error (.internal "api_key insert failed"))
    else (s, .error Err.forbidden)

/-- `createApiKey` (`api-keys.ts` lines 97-127). `apiKeyOpt` is
`options.apiKey` and `generatedKey` the value `randomstring.generate()`
would produce. When the caller supplied a transaction
(`hasCallerTx = true`) the body runs in it and on failure the partial
writes stay visible in that transaction (rolling back is the caller's
concern); otherwise `sbvrUtils.db.transaction` wraps the body, so the
observable store is the committed state on success and the untouched
initial state on failure. Returns `(observable store, result)`. -/
def createApiKey (hasCallerTx : Bool) (actorLookup : Option Nat)
    (canAccess : List Nat) (keyInsertOk bindingInsertOk : Bool)
    (actorTypeID : Nat) (roleName : String) (apiKeyOpt : Option String)
    (generatedKey : String) (name description : Option String)
    (s : AuthStore) : AuthStore × Except Err String :=
  let apiKey := apiKeyOpt.getD generatedKey
  let r := createApiKeyInTx actorLookup canAccess keyInsertOk bindingInsertOk
    actorTypeID roleName apiKey name description s
  match r.2 with
  | .ok k => (r.1, .ok k)
  | .error e => (if hasCallerTx then r.1 else s, .error e)

/-! ### Request identity resolver (`auth.ts` lines 132-218) -/

/-- The `userFields` projection (`_.pick(user, userFields)` with
`userFields = [id, username, email, created_at, jwt_secret]`). -/
structure PickedUser where
  id : Nat
  username : String
  email : String
  created_at : Nat
  jwt_secret : String
  deriving DecidableEq, Repr

/-- `_.pick(user, userFields)`. -/
def pickUserFields (u : UserRec) : PickedUser :=
  ⟨u.id, u.username, u.email, u.created_at, u.jwt_secret⟩

/-- `req.apiKey` as `getUser` sees it: its `key` field may itself be
absent (`none`) or empty, both falsy. -/
structure ApiKeyInfo where
  key : Option String
  deriving DecidableEq, Repr

/-- The request-scoped mutable slots `getUser` reads and writes, as left
by the `retrieveAPIKey` pre-resolution middleware. -/
structure Req where
  user : Option PickedUser
  creds : Option PickedUser
  apiKey : Option ApiKeyInfo
  deriving DecidableEq, Repr

/-- The memoized `getUserQuery` join (`auth.ts` lines 140-168): the
first user (`$top 1`) having an actor that owns an `api_key` row whose
`key` equals the given string. -/
def queryUserByKey (users : List UserRec) (apiKeys : List ApiKeyRow)
    (k : String) : Option UserRec :=
  (users.filter (fun u =>
    apiKeys.any (fun a => a.is_of__actor == u.actor && a.key == k))).head?

/-- `getUser` (`auth.ts` lines 177-218). Returns the result (`.ok none`
models resolving `undefined`), the request state after the call, and
how many `getUserQuery` store lookups were performed. -/
def getUser (users : List UserRec) (apiKeys : List ApiKeyRow)
    (required : Bool) (req : Req) :
    Except Err (Option PickedUser) × Req × Nat :=
  let req1 := if req.user.isSome && req.creds.isNone then
    ⟨req.user, req.user, req.apiKey⟩ else req
  match req1.creds with
  | some _ =>
    if required && req1.user.isNone then
      (.error (.unauthorized "User has not been authorized"), req1, 0)
    else (.ok req1.user, req1, 0)
  | none =>
    let key : Option String :=
      match req1.apiKey with
      | some ak =>
        match ak.key with
        | some kk => if kk = "" then none else some kk
        | none => none
      | none => none
    match key with
    | none =>
      if required then
        (.error (.unauthorized "Request has no JWT or API key"), req1, 0)
      else (.ok none, req1, 0)
    | some k =>
      match queryUserByKey users apiKeys k with
      | some u =>
        let pu := pickUserFields u
        (.ok (some pu), ⟨some pu, some pu, req1.apiKey⟩, 1)
      | none =>
        if required then
          (.error (.unauthorized "User not found for API key"), req1, 1)
        else (.ok req1.user, req1, 1)

/-! ### Theorems -/

/-- Claim C8: `validatePassword` is a pure, deterministic check; it
fails with an invalid-input (BadRequest) error when the password is
missing, empty or shorter than 8 characters, and succeeds for every
password of length at least 8. -/
theorem validatePassword_spec (p : String) :
    validatePassword none = .error (.badRequest "Password required.") ∧
    (p.length < 8 → ∃ m, validatePassword (some p) = .error (.badRequest m)) ∧
    (8 ≤ p.length → validatePassword (some p) = .ok ()) := by
  refine ⟨rfl, ?_, ?_⟩
  · intro h
    by_cases hp : p = ""
    · exact ⟨"Password required.", by simp [validatePassword, hp]⟩
    · exact ⟨"Password must be at least 8 characters.",
        by simp [validatePassword, hp, h]⟩
  · intro h
    have hp : p ≠ "" := by
      intro he
      rw [he] at h
      exact absurd h (by decide)
    simp [validatePassword, hp, Nat.not_lt.mpr h]

/-- Witness for C8 at the concrete passwords "abcdefgh" (length 8,
accepted) and "short" (length 5, rejected). -/
theorem validatePassword_spec_witness :
    validatePassword (some "abcdefgh") = .ok () ∧
    ∃ m, validatePassword (some "short") = .error (.badRequest m) :=
  ⟨(validatePassword_spec "abcdefgh").2.2 (by decide),
    (validatePassword_spec "short").2.1 (by decide)⟩

/-- Claim C9: for the falsy (empty) `loginInfo`, `findUser` returns
`undefined` immediately and issues no query against the store, whatever
transaction and selected fields are supplied. -/
theorem findUser_empty_no_query (db : List UserRec) (tx : Option Nat)
    (sel : List String) : findUserTraced db tx sel "" = (none, []) := rfl

/-- Counterexample for C2 as stated: at password "hunter2" the null-hash
path's comparison call carries the empty string, not the real password. -/
theorem comparePassword_null_not_real_password :
    (comparePasswordTraced (fun _ _ => false) "hunter2" none).1.password = ""
      ∧ ("" : String) ≠ "hunter2" :=
  ⟨rfl, by decide⟩

/-- Claim C2 (amended): `comparePassword(p, null)` invokes the same
comparison primitive as the present-hash path, comparing the fixed
empty string (not the real password) against the fixed valid-format
dummy hash, and returns that comparison's result, which is false
whenever the primitive rejects the empty string against the dummy
hash. -/
theorem comparePassword_null_dummy (compare : String → String → Bool)
    (p h : String) :
    comparePasswordTraced compare p none =
      (⟨"", dummyHash⟩, compare "" dummyHash) ∧
    comparePasswordTraced compare p (some h) = (⟨p, h⟩, compare p h) ∧
    (compare "" dummyHash = false → comparePassword compare p none = false) := by
  refine ⟨rfl, rfl, ?_⟩
  intro hc
  simp [comparePassword, comparePasswordTraced, runInvalidPasswordComparison, hc]

/-- Witness for C2 (amended) at a primitive that rejects everything and
the concrete password "pw". -/
theorem comparePassword_null_dummy_witness :
    comparePassword (fun _ _ => false) "pw" none = false :=
  (comparePassword_null_dummy (fun _ _ => false) "pw" "x").2.2 rfl

/-- Claim C10: the blacklist is the static list `["root"]` and the
membership test is a case-sensitive exact match, so any username that
differs from "root" in letter case passes the check and registration
proceeds to the uniqueness checks. -/
theorem registerUser_blacklist_case_sensitive (u : String)
    (hlow : strLower u = "root") (hne : u ≠ "root") (db : List UserRec)
    (tx : Nat) (createdId : Option Nat) (e : String) :
    USERNAME_BLACKLIST = ["root"] ∧
    USERNAME_BLACKLIST.contains u = false ∧
    registerUser db tx createdId ⟨u, e⟩ =
      registerUserPostBlacklist db tx createdId ⟨u, e⟩ := by
  have hmem : u ∉ USERNAME_BLACKLIST := by
    simp [USERNAME_BLACKLIST]
    exact hne
  have hc : USERNAME_BLACKLIST.contains u = false := by
    simpa using hmem
  exact ⟨rfl, hc, by simp [registerUser, hmem]⟩

/-- Witness for C10 at the concrete username "Root". -/
theorem registerUser_blacklist_case_sensitive_witness :
    USERNAME_BLACKLIST = ["root"] ∧
    USERNAME_BLACKLIST.contains "Root" = false ∧
    registerUser [] 0 none ⟨"Root", "a@b"⟩ =
      registerUserPostBlacklist [] 0 none ⟨"Root", "a@b"⟩ :=
  registerUser_blacklist_case_sensitive "Root" (by decide) (by decide)
    [] 0 none "a@b"

/-- Claim C5: `registerUser` rejects a blacklisted username with
`Conflict` before any store query; otherwise it checks the email, then
the username, each failing with `Conflict` when taken (the lookups are
the case-insensitive `findUser` queries); with both free it inserts the
row, returning the created id on success and an internal (non-Conflict)
error when the store reports no id. -/
theorem registerUser_checks (db : List UserRec) (tx : Nat)
    (createdId : Option Nat) (u e : String) (v w : UserRec) (uid : Nat) :
    (u ∈ USERNAME_BLACKLIST →
      registerUser db tx createdId ⟨u, e⟩ =
        (.error (.conflict "This username is blacklisted"), [])) ∧
    (u ∉ USERNAME_BLACKLIST →
      (findUserTraced db (some tx) ["id"] e).1 = some v →
      (registerUser db tx createdId ⟨u, e⟩).1 =
        .error (.conflict "This email is already taken")) ∧
    (u ∉ USERNAME_BLACKLIST →
      (findUserTraced db (some tx) ["id"] e).1 = none →
      (findUserTraced db (some tx) ["id"] u).1 = some w →
      (registerUser db tx createdId ⟨u, e⟩).1 =
        .error (.conflict "This username is already taken")) ∧
    (u ∉ USERNAME_BLACKLIST →
      (findUserTraced db (some tx) ["id"] e).1 = none →
      (findUserTraced db (some tx) ["id"] u).1 = none →
      createdId = none →
      (registerUser db tx createdId ⟨u, e⟩).1 =
        .error (.internal "Error creating user in the platform")) ∧
    (u ∉ USERNAME_BLACKLIST →
      (findUserTraced db (some tx) ["id"] e).1 = none →
      (findUserTraced db (some tx) ["id"] u).1 = none →
      createdId = some uid →
      (registerUser db tx createdId ⟨u, e⟩).1 = .ok uid) := by
  refine ⟨?_, ?_, ?_, ?_, ?_⟩
  · intro hb
    simp [registerUser, hb]
  · intro hb he
    simp [registerUser, registerUserPostBlacklist, hb, he]
  · intro hb he hu
    simp [registerUser, registerUserPostBlacklist, hb, he, hu]
  · intro hb he hu hc
    simp [registerUser, registerUserPostBlacklist, hb, he, hu, hc]
  · intro hb he hu hc
    simp [registerUser, registerUserPostBlacklist, hb, he, hu, hc]

/-- Witness for C5: a store holding the single user alice
(`alice` / `a@b`); a blacklisted registration issues no query, a
registration under the taken email `A@B` or the taken username `Alice`
conflicts, and with both identities free the result is the created id
when the store returns one and an internal error otherwise. -/
theorem registerUser_checks_witness :
    registerUser [⟨1, 100, "alice", "a@b", none, 0, "s"⟩] 0 (some 5)
        ⟨"root", "c@d"⟩ =
      (.error (.conflict "This username is blacklisted"), []) ∧
    (registerUser [⟨1, 100, "alice", "a@b", none, 0, "s"⟩] 0 (some 5)
        ⟨"bob", "A@B"⟩).1 =
      .error (.conflict "This email is already taken") ∧
    (registerUser [⟨1, 100, "alice", "a@b", none, 0, "s"⟩] 0 (some 5)
        ⟨"Alice", "c@d"⟩).1 =
      .error (.conflict "This username is already taken") ∧
    (registerUser [⟨1, 100, "alice", "a@b", none, 0, "s"⟩] 0 none
        ⟨"bob", "c@d"⟩).1 =
      .error (.internal "Error creating user in the platform") ∧
    (registerUser [⟨1, 100, "alice", "a@b", none, 0, "s"⟩] 0 (some 5)
        ⟨"bob", "c@d"⟩).1 = .ok 5 :=
  ⟨(registerUser_checks [⟨1, 100, "alice", "a@b", none, 0, "s"⟩] 0 (some 5)
      "root" "c@d" ⟨1, 100, "alice", "a@b", none, 0, "s"⟩
      ⟨1, 100, "alice", "a@b", none, 0, "s"⟩ 5).1 (by decide),
    (registerUser_checks [⟨1, 100, "alice", "a@b", none, 0, "s"⟩] 0 (some 5)
      "bob" "A@B" ⟨1, 100, "alice", "a@b", none, 0, "s"⟩
      ⟨1, 100, "alice", "a@b", none, 0, "s"⟩ 5).2.1 (by decide) (by decide),
    (registerUser_checks [⟨1, 100, "alice", "a@b", none, 0, "s"⟩] 0 (some 5)
      "Alice" "c@d" ⟨1, 100, "alice", "a@b", none, 0, "s"⟩
      ⟨1, 100, "alice", "a@b", none, 0, "s"⟩ 5).2.2.1 (by decide) (by decide)
      (by decide),
    (registerUser_checks [⟨1, 100, "alice", "a@b", none, 0, "s"⟩] 0 none
      "bob" "c@d" ⟨1, 100, "alice", "a@b", none, 0, "s"⟩
      ⟨1, 100, "alice", "a@b", none, 0, "s"⟩ 5).2.2.2.1 (by decide) (by decide)
      (by decide) rfl,
    (registerUser_checks [⟨1, 100, "alice", "a@b", none, 0, "s"⟩] 0 (some 5)
      "bob" "c@d" ⟨1, 100, "alice", "a@b", none, 0, "s"⟩
      ⟨1, 100, "alice", "a@b", none, 0, "s"⟩ 5).2.2.2.2 (by decide) (by decide)
      (by decide) rfl⟩

/-- Claim C6: `updatePasswordIfNeeded` fails with `NotFound` when no
user matches; returns `false` without invoking the store write path
when the new password matches the stored one; returns `true` when the
`setPassword` write succeeds; and returns `false`, propagating no
error, when the `setPassword` write itself fails (the code's only
`catch`; every other failure in the core propagates). -/
theorem updatePasswordIfNeeded_spec (db : List UserRec)
    (compare : String → String → Bool) (setRes : Except Err Unit)
    (loginInfo newPassword : String) (user : UserRec) (e : Err) :
    ((findUserTraced db none ["id", "actor", "username", "password"]
        loginInfo).1 = none →
      updatePasswordIfNeeded db compare setRes loginInfo newPassword =
        .error (.notFound "User not found.")) ∧
    ((findUserTraced db none ["id", "actor", "username", "password"]
        loginInfo).1 = some user →
      comparePassword compare newPassword user.password = true →
      updatePasswordIfNeeded db compare setRes loginInfo newPassword =
        .ok (false, false)) ∧
    ((findUserTraced db none ["id", "actor", "username", "password"]
        loginInfo).1 = some user →
      comparePassword compare newPassword user.password = false →
      setRes = .ok () →
      updatePasswordIfNeeded db compare setRes loginInfo newPassword =
        .ok (true, true)) ∧
    ((findUserTraced db none ["id", "actor", "username", "password"]
        loginInfo).1 = some user →
      comparePassword compare newPassword user.password = false →
      setRes = .error e →
      updatePasswordIfNeeded db compare setRes loginInfo newPassword =
        .ok (false, true)) := by
  refine ⟨?_, ?_, ?_, ?_⟩
  · intro hf
    simp [updatePasswordIfNeeded, hf]
  · intro hf hm
    simp [updatePasswordIfNeeded, hf, hm]
  · intro hf hm hs
    simp [updatePasswordIfNeeded, hf, hm, hs]
  · intro hf hm hs
    simp [updatePasswordIfNeeded, hf, hm, hs]

/-- Witness for C6: one stored user bob with hash "h"; a primitive that
accepts exactly the password "same". Lookup of a missing user is
NotFound, an identical password is a no-write `false`, a succeeding
write is `true`, and a failing write is a swallowed `false`. -/
theorem updatePasswordIfNeeded_spec_witness :
    updatePasswordIfNeeded [⟨2, 200, "bob", "b@c", some "h", 0, "s"⟩]
        (fun p _ => p == "same") (.ok ()) "ghost" "same" =
      .error (.notFound "User not found.") ∧
    updatePasswordIfNeeded [⟨2, 200, "bob", "b@c", some "h", 0, "s"⟩]
        (fun p _ => p == "same") (.ok ()) "bob" "same" = .ok (false, false) ∧
    updatePasswordIfNeeded [⟨2, 200, "bob", "b@c", some "h", 0, "s"⟩]
        (fun p _ => p == "same") (.ok ()) "bob" "other" = .ok (true, true) ∧
    updatePasswordIfNeeded [⟨2, 200, "bob", "b@c", some "h", 0, "s"⟩]
        (fun p _ => p == "same") (.error (.internal "boom")) "bob" "other" =
      .ok (false, true) :=
  ⟨(updatePasswordIfNeeded_spec [⟨2, 200, "bob", "b@c", some "h", 0, "s"⟩]
      (fun p _ => p == "same") (.ok ()) "ghost" "same"
      ⟨2, 200, "bob", "b@c", some "h", 0, "s"⟩ (.internal "boom")).1 rfl,
    (updatePasswordIfNeeded_spec [⟨2, 200, "bob", "b@c", some "h", 0, "s"⟩]
      (fun p _ => p == "same") (.ok ()) "bob" "same"
      ⟨2, 200, "bob", "b@c", some "h", 0, "s"⟩ (.internal "boom")).2.1
      rfl rfl,
    (updatePasswordIfNeeded_spec [⟨2, 200, "bob", "b@c", some "h", 0, "s"⟩]
      (fun p _ => p == "same") (.ok ()) "bob" "other"
      ⟨2, 200, "bob", "b@c", some "h", 0, "s"⟩ (.internal "boom")).2.2.1
      rfl rfl rfl,
    (updatePasswordIfNeeded_spec [⟨2, 200, "bob", "b@c", some "h", 0, "s"⟩]
      (fun p _ => p == "same") (.error (.internal "boom")) "bob" "other"
      ⟨2, 200, "bob", "b@c", some "h", 0, "s"⟩ (.internal "boom")).2.2.2
      rfl rfl rfl⟩

/-- Claim C3: with neither credentials nor an API key attached,
`getUser` with `required` fails `Unauthorized`; with credentials but no
full user it fails `Unauthorized` ("User has not been authorized");
with an API key whose string matches no user it fails `Unauthorized`
("User not found for API key"); in each case `required = false` yields
`undefined` instead. -/
theorem getUser_unauthorized (users : List UserRec) (apiKeys : List ApiKeyRow)
    (req : Req) (k : String) :
    (req.user = none → req.creds = none → req.apiKey = none →
      getUser users apiKeys true req =
        (.error (.unauthorized "Request has no JWT or API key"), req, 0) ∧
      getUser users apiKeys false req = (.ok none, req, 0)) ∧
    (req.creds.isSome = true → req.user = none →
      (getUser users apiKeys true req).1 =
        .error (.unauthorized "User has not been authorized") ∧
      (getUser users apiKeys false req).1 = .ok none) ∧
    (req.user = none → req.creds = none → req.apiKey = some ⟨some k⟩ →
      k ≠ "" → queryUserByKey users apiKeys k = none →
      (getUser users apiKeys true req).1 =
        .error (.unauthorized "User not found for API key") ∧
      (getUser users apiKeys false req).1 = .ok none) := by
  obtain ⟨ru, rc, ra⟩ := req
  refine ⟨?_, ?_, ?_⟩
  · intro hu hc ha
    subst hu
    subst hc
    subst ha
    exact ⟨rfl, rfl⟩
  · intro hs hu
    obtain ⟨c, hc⟩ := Option.isSome_iff_exists.mp hs
    subst hu
    simp only at hc
    subst hc
    exact ⟨rfl, rfl⟩
  · intro hu hc ha hk hq
    subst hu
    subst hc
    subst ha
    constructor
    · simp [getUser, hk, hq]
    · simp [getUser, hk, hq]

/-- Witness for C3: one user alice owning the key "goodkey"; a bare
request, a credentials-only request and a request carrying the unknown
key "badkey", each under both `required` modes. -/
theorem getUser_unauthorized_witness :
    (getUser [⟨1, 100, "alice", "a@b", none, 5, "sec"⟩]
        [⟨10, "goodkey", 100, none, none⟩] true ⟨none, none, none⟩ =
      (.error (.unauthorized "Request has no JWT or API key"),
        ⟨none, none, none⟩, 0) ∧
      getUser [⟨1, 100, "alice", "a@b", none, 5, "sec"⟩]
        [⟨10, "goodkey", 100, none, none⟩] false ⟨none, none, none⟩ =
      (.ok none, ⟨none, none, none⟩, 0)) ∧
    ((getUser [⟨1, 100, "alice", "a@b", none, 5, "sec"⟩]
        [⟨10, "goodkey", 100, none, none⟩] true
        ⟨none, some ⟨1, "alice", "a@b", 5, "sec"⟩, none⟩).1 =
      .error (.unauthorized "User has not been authorized") ∧
      (getUser [⟨1, 100, "alice", "a@b", none, 5, "sec"⟩]
        [⟨10, "goodkey", 100, none, none⟩] false
        ⟨none, some ⟨1, "alice", "a@b", 5, "sec"⟩, none⟩).1 = .ok none) ∧
    ((getUser [⟨1, 100, "alice", "a@b", none, 5, "sec"⟩]
        [⟨10, "goodkey", 100, none, none⟩] true
        ⟨none, none, some ⟨some "badkey"⟩⟩).1 =
      .error (.unauthorized "User not found for API key") ∧
      (getUser [⟨1, 100, "alice", "a@b", none, 5, "sec"⟩]
        [⟨10, "goodkey", 100, none, none⟩] false
        ⟨none, none, some ⟨some "badkey"⟩⟩).1 = .ok none) :=
  ⟨(getUser_unauthorized [⟨1, 100, "alice", "a@b", none, 5, "sec"⟩]
      [⟨10, "goodkey", 100, none, none⟩] ⟨none, none, none⟩ "badkey").1
      rfl rfl rfl,
    (getUser_unauthorized [⟨1, 100, "alice", "a@b", none, 5, "sec"⟩]
      [⟨10, "goodkey", 100, none, none⟩]
      ⟨none, some ⟨1, "alice", "a@b", 5, "sec"⟩, none⟩ "badkey").2.1
      rfl rfl,
    (getUser_unauthorized [⟨1, 100, "alice", "a@b", none, 5, "sec"⟩]
      [⟨10, "goodkey", 100, none, none⟩]
      ⟨none, none, some ⟨some "badkey"⟩⟩ "badkey").2.2
      rfl rfl rfl (by decide) rfl⟩

/-- Claim C7: when `getUser` resolves a user from an attached API key,
the picked user is stored on the request under both the `user` and the
`creds` slot, and a second call on the resulting request returns the
same cached user with zero further store lookups (the first call made
exactly one). -/
theorem getUser_caches (users : List UserRec) (apiKeys : List ApiKeyRow)
    (req : Req) (k : String) (u : UserRec) (required : Bool) :
    req.user = none → req.creds = none → req.apiKey = some ⟨some k⟩ →
    k ≠ "" → queryUserByKey users apiKeys k = some u →
    getUser users apiKeys required req =
      (.ok (some (pickUserFields u)),
        ⟨some (pickUserFields u), some (pickUserFields u), some ⟨some k⟩⟩, 1) ∧
    getUser users apiKeys required
        ⟨some (pickUserFields u), some (pickUserFields u), some ⟨some k⟩⟩ =
      (.ok (some (pickUserFields u)),
        ⟨some (pickUserFields u), some (pickUserFields u), some ⟨some k⟩⟩, 0) := by
  intro hu hc ha hk hq
  obtain ⟨ru, rc, ra⟩ := req
  simp only at hu hc ha
  subst hu
  subst hc
  subst ha
  constructor
  · simp [getUser, hk, hq]
  · simp [getUser]

/-- Witness for C7: resolving the key "goodkey" to alice caches her on
the request, and the second call replays the cache with no lookup. -/
theorem getUser_caches_witness :
    getUser [⟨1, 100, "alice", "a@b", none, 5, "sec"⟩]
        [⟨10, "goodkey", 100, none, none⟩] true
        ⟨none, none, some ⟨some "goodkey"⟩⟩ =
      (.ok (some ⟨1, "alice", "a@b", 5, "sec"⟩),
        ⟨some ⟨1, "alice", "a@b", 5, "sec"⟩,
          some ⟨1, "alice", "a@b", 5, "sec"⟩, some ⟨some "goodkey"⟩⟩, 1) ∧
    getUser [⟨1, 100, "alice", "a@b", none, 5, "sec"⟩]
        [⟨10, "goodkey", 100, none, none⟩] true
        ⟨some ⟨1, "alice", "a@b", 5, "sec"⟩,
          some ⟨1, "alice", "a@b", 5, "sec"⟩, some ⟨some "goodkey"⟩⟩ =
      (.ok (some ⟨1, "alice", "a@b", 5, "sec"⟩),
        ⟨some ⟨1, "alice", "a@b", 5, "sec"⟩,
          some ⟨1, "alice", "a@b", 5, "sec"⟩, some ⟨some "goodkey"⟩⟩, 0) :=
  getUser_caches [⟨1, 100, "alice", "a@b", none, 5, "sec"⟩]
    [⟨10, "goodkey", 100, none, none⟩] ⟨none, none, some ⟨some "goodkey"⟩⟩
    "goodkey" ⟨1, 100, "alice", "a@b", none, 5, "sec"⟩ true
    rfl rfl rfl (by decide) rfl

/-- Binding rows whose `api_key` ids all lie below `n` do not survive a
filter for the fresh id `n`. -/
theorem filter_bindings_fresh (bindings : List BindingRow) (n : Nat)
    (h : ∀ b ∈ bindings, b.api_key < n) :
    bindings.filter (fun b => b.api_key == n) = [] := by
  induction bindings with
  | nil => rfl
  | cons b bs ih =>
    have hb : b.api_key < n := h b (by simp)
    have hne : (b.api_key == n) = false := by
      simp [Nat.ne_of_lt hb]
    rw [List.filter_cons, hne]
    exact ih (fun x hx => h x (by simp [hx]))

/-- Claim C1: with no caller-supplied transaction, `createApiKey`
either persists a fresh ApiKey row carrying the key string with exactly
one role binding and returns that key, or fails leaving the store
exactly as it was — in particular after a failed role lookup or a
failed role-binding insert no ApiKey row (and no key without a role
binding) is observable. -/
theorem createApiKey_atomic (actorLookup : Option Nat) (canAccess : List Nat)
    (keyInsertOk bindingInsertOk : Bool) (actorTypeID : Nat)
    (roleName : String) (apiKeyOpt : Option String) (generatedKey : String)
    (name description : Option String) (s : AuthStore)
    (hKeys : ∀ r ∈ s.apiKeys, r.id < s.nextId)
    (hBindings : ∀ b ∈ s.bindings, b.api_key < s.nextId) :
    ∃ s2 r, createApiKey false actorLookup canAccess keyInsertOk
        bindingInsertOk actorTypeID roleName apiKeyOpt generatedKey
        name description s = (s2, r) ∧
      ((r = .ok (apiKeyOpt.getD generatedKey) ∧
        ∃ row, row ∈ s2.apiKeys ∧ row ∉ s.apiKeys ∧
          row.key = apiKeyOpt.getD generatedKey ∧
          (s2.bindings.filter (fun b => b.api_key == row.id)).length = 1) ∨
       (s2 = s ∧ ∃ e, r = .error e)) := by
  cases actorLookup with
  | none =>
    exact ⟨s, .error (.internal "No entity found to associate with the api key"),
      rfl, Or.inr ⟨rfl, _, rfl⟩⟩
  | some actorID =>
    by_cases hca : canAccess.head? = some actorTypeID
    · cases keyInsertOk with
      | false =>
        refine ⟨s, .error (.internal "api_key insert failed"), ?_,
          Or.inr ⟨rfl, _, rfl⟩⟩
        simp [createApiKey, createApiKeyInTx, hca]
      | true =>
        cases hrole : (s.roles.filter (fun r => r.name == roleName)).head? with
        | none =>
          refine ⟨s, .error (.internal "cannot destructure role id"), ?_,
            Or.inr ⟨rfl, _, rfl⟩⟩
          simp [createApiKey, createApiKeyInTx, hca, hrole]
        | some role =>
          cases bindingInsertOk with
          | false =>
            refine ⟨s, .error (.internal "api_key__has__role insert failed"),
              ?_, Or.inr ⟨rfl, _, rfl⟩⟩
            simp [createApiKey, createApiKeyInTx, hca, hrole]
          | true =>
            refine ⟨⟨s.apiKeys ++ [⟨s.nextId, apiKeyOpt.getD generatedKey,
                actorID, name, description⟩], s.roles,
                s.bindings ++ [⟨s.nextId, role.id⟩], s.nextId + 1⟩,
              .ok (apiKeyOpt.getD generatedKey), ?_, Or.inl ⟨rfl,
              ⟨s.nextId, apiKeyOpt.getD generatedKey, actorID, name,
                description⟩, ?_, ?_, rfl, ?_⟩⟩
            · simp [createApiKey, createApiKeyInTx, hca, hrole]
            · simp
            · intro hmem
              exact absurd (hKeys _ hmem) (by simp)
            · rw [List.filter_append,
                filter_bindings_fresh s.bindings s.nextId hBindings]
              simp
    · refine ⟨s, .error Err.forbidden, ?_, Or.inr ⟨rfl, _, rfl⟩⟩
      simp [createApiKey, createApiKeyInTx, hca]

/-- Witness for C1: issuing the key "sekret" bound to role `observer`
for entity 42 (actor 7) against a store that starts with no keys and no
bindings. -/
theorem createApiKey_atomic_witness :
    ∃ s2 r, createApiKey false (some 7) [42] true true 42 "observer"
        (some "sekret") "gen" none none ⟨[], [⟨3, "observer"⟩], [], 10⟩ =
        (s2, r) ∧
      ((r = .ok "sekret" ∧
        ∃ row, row ∈ s2.apiKeys ∧
          row ∉ (⟨[], [⟨3, "observer"⟩], [], 10⟩ : AuthStore).apiKeys ∧
          row.key = "sekret" ∧
          (s2.bindings.filter (fun b => b.api_key == row.id)).length = 1) ∨
       (s2 = ⟨[], [⟨3, "observer"⟩], [], 10⟩ ∧ ∃ e, r = .error e)) :=
  createApiKey_atomic (some 7) [42] true true 42 "observer" (some "sekret")
    "gen" none none ⟨[], [⟨3, "observer"⟩], [], 10⟩ (by simp) (by simp)

/-- Claim C4: when the `canAccess` check's first result id differs from
the target entity id (or there is no result), `createApiKey` fails with
`Forbidden` and the store is untouched; when the returned id equals the
target entity id the operation never fails with `Forbidden`. -/
theorem createApiKey_canAccess_guard (hasCallerTx : Bool) (actorID : Nat)
    (actorLookup : Option Nat) (canAccess : List Nat)
    (keyInsertOk bindingInsertOk : Bool) (actorTypeID : Nat)
    (roleName : String) (apiKeyOpt : Option String) (generatedKey : String)
    (name description : Option String) (s : AuthStore) :
    (canAccess.head? ≠ some actorTypeID →
      createApiKey hasCallerTx (some actorID) canAccess keyInsertOk
        bindingInsertOk actorTypeID roleName apiKeyOpt generatedKey
        name description s = (s, .error Err.forbidden)) ∧
    (canAccess.head? = some actorTypeID →
      (createApiKey hasCallerTx actorLookup canAccess keyInsertOk
        bindingInsertOk actorTypeID roleName apiKeyOpt generatedKey
        name description s).2 ≠ .error Err.forbidden) := by
  constructor
  · intro hca
    simp [createApiKey, createApiKeyInTx, hca]
  · intro hca
    cases actorLookup with
    | none => simp [createApiKey, createApiKeyInTx]
    | some a =>
      cases keyInsertOk with
      | false => simp [createApiKey, createApiKeyInTx, hca]
      | true =>
        cases hrole : (s.roles.filter (fun r => r.name == roleName)).head? with
        | none => simp [createApiKey, createApiKeyInTx, hca, hrole]
        | some role =>
          cases bindingInsertOk with
          | false => simp [createApiKey, createApiKeyInTx, hca, hrole]
          | true => simp [createApiKey, createApiKeyInTx, hca, hrole]

/-- Witness for C4: for entity 42, a check answering id 7 is rejected
with `Forbidden` leaving the store untouched, while a check answering
id 42 lets the issuance proceed. -/
theorem createApiKey_canAccess_guard_witness :
    createApiKey false (some 7) [7] true true 42 "observer" (some "sekret")
        "gen" none none ⟨[], [⟨3, "observer"⟩], [], 10⟩ =
      (⟨[], [⟨3, "observer"⟩], [], 10⟩, .error Err.forbidden) ∧
    (createApiKey false (some 7) [42] true true 42 "observer" (some "sekret")
        "gen" none none ⟨[], [⟨3, "observer"⟩], [], 10⟩).2 ≠
      .error Err.forbidden :=
  ⟨(createApiKey_canAccess_guard false 7 (some 7) [7] true true 42 "observer"
      (some "sekret") "gen" none none ⟨[], [⟨3, "observer"⟩], [], 10⟩).1
      (by decide),
    (createApiKey_canAccess_guard false 7 (some 7) [42] true true 42
      "observer" (some "sekret") "gen" none none
      ⟨[], [⟨3, "observer"⟩], [], 10⟩).2 rfl⟩

end OpenBalena
